import Mathlib

/-!
Verification of `src/deb_installer_gui.py` (Deb Package Installer for Arch
Linux).  The file shallowly embeds the parts of the program that the claims
are about: the string processing applied to child-process output lines, the
worker pipeline (`InstallWorker.run`), the converter auto-install loop
(`InstallWorker.install_debtap`), the conversion step
(`InstallWorker.convert_deb_package`), the package-install step
(`InstallWorker.install_arch_package`) and the sudo-password validation
(`DebInstallerGUI.get_sudo_password`).  External effects (child processes,
the filesystem, elapsed time) are passed in as explicit environment records;
each definition carries a comment pointing to the Python lines it embeds.
-/

namespace DebInstaller

/-! ### Models of the Python string methods used by the program -/

/-- Model of Python `str.lower` on the character list of a string
(`Char.toLower` mirrors Python lowercasing on the ASCII range, which is all
the program compares against). -/
def lowerChars (l : List Char) : List Char := l.map Char.toLower

/-- Whitespace test used by Python `str.strip` / `str.rstrip`. -/
def isWS (c : Char) : Bool := c.isWhitespace

/-- Model of Python `str.rstrip()` (drop trailing whitespace). -/
def rstripChars (l : List Char) : List Char :=
  (l.reverse.dropWhile isWS).reverse

/-- Model of Python `str.strip()` (drop leading and trailing whitespace). -/
def stripChars (l : List Char) : List Char :=
  (rstripChars l).dropWhile isWS

/-- `leads p s` holds when `p` is a leading segment of `s` (used to model
Python `str.startswith` and as the kernel of substring search). -/
def leads : List Char → List Char → Bool
  | [], _ => true
  | _ :: _, [] => false
  | a :: as, b :: bs => a == b && leads as bs

/-- `occurs p s` models the Python containment test `p in s` on strings:
`p` occurs as a contiguous segment of `s`. -/
def occurs (p : List Char) : List Char → Bool
  | [] => p.isEmpty
  | c :: rest => leads p (c :: rest) || occurs p rest

/-- String-level wrapper for `rstripChars` (Python `line.rstrip()`). -/
def pyRstrip (s : String) : String := ⟨rstripChars s.data⟩

/-- String-level wrapper for `stripChars` (Python `line.strip()`). -/
def pyStrip (s : String) : String := ⟨stripChars s.data⟩

/-- Model of Python `needle in hay` for strings. -/
def pyContains (hay needle : String) : Bool := occurs needle.data hay.data

/-- Model of Python `s.startswith(p)`. -/
def pyStartsWith (s p : String) : Bool := leads p.data s.data

/-- Model of Python `s.endswith(p)`. -/
def pyEndsWith (s p : String) : Bool := leads p.data.reverse s.data.reverse

/-- The redaction test of `install_debtap`
(`'password' not in line.lower()`, lines 278/286/312/319): does the line
contain `"password"` case-insensitively? -/
def mentionsPassword (s : String) : Bool :=
  occurs "password".data (lowerChars s.data)

/-! ### `install_debtap`: streaming of backend-install and db-refresh output

Lines 272–288 (install stream) and 306–321 (database-refresh stream) of
`install_debtap` run the same loop: read lines from the merged stdout while
the child is alive, then split the remaining buffered output on newlines.
A streamed line is emitted as `f"  {line}"` only when, after `rstrip`, it is
non-empty and does not contain `"password"` case-insensitively; a remaining
line is emitted as `f"  {line.rstrip()}"` only when its `strip` is non-empty
and the raw line does not contain `"password"` case-insensitively. -/

/-- The two-space indentation used when `install_debtap` relays a child
output line (`f"  {line}"`). -/
def indentLine (s : String) : String := ⟨' ' :: ' ' :: s.data⟩

/-- Lines 275–280 / 309–313: one iteration of the live-streaming loop,
giving the emitted log line (if any) for one raw line from `readline()`. -/
def streamLineEmit (raw : String) : Option String :=
  let line := pyRstrip raw
  if !line.isEmpty && !mentionsPassword line then some (indentLine line)
  else none

/-- Lines 283–287 / 316–320: one line of the remaining output read after
the process exited (`remaining.split('\n')`). -/
def remainingLineEmit (raw : String) : Option String :=
  if !(pyStrip raw).isEmpty && !mentionsPassword raw then
    some (indentLine (pyRstrip raw))
  else none

/-- All log lines emitted by one `install_debtap` streaming loop, given the
lines read live and the lines of the remaining buffered output.  Models both
the backend-install stream (lines 272–288) and the database-refresh stream
(lines 306–321), whose filtering code is identical. -/
def debtapStreamEmits (stream remaining : List String) : List String :=
  stream.filterMap streamLineEmit ++ remaining.filterMap remainingLineEmit

/-! ### `install_arch_package`: output streaming and prompt auto-answering

Lines 449–483: the install step reads the merged output of
`sudo pacman -U --noconfirm --needed <pkg>` line by line.  Every line read
live is `rstrip`ped and emitted unconditionally; when the lowered line
contains one of five confirmation phrases, `'y\n'` is written once to the
child's stdin and a note is emitted.  After the process exits, the remaining
buffered output is split on newlines and every line whose `strip` is
non-empty is emitted (`rstrip`ped), with no content filter on either path. -/

/-- Observable actions of the `install_arch_package` read loop. -/
inductive InstEvent where
  /-- a line relayed to the console via `console_output.emit` -/
  | logLine (s : String)
  /-- a write to the child's stdin (`process.stdin.write`) -/
  | stdinWrite (s : String)
  /-- the log note "Automatically answered 'y'" (line 470) -/
  | autoAnswerNote
  deriving DecidableEq, Repr

/-- The confirmation-phrase table of lines 459–465. -/
def promptPhrases : List String :=
  ["proceed with installation", "continue?", "[y/n]", "replace", "conflict"]

/-- Line 459: `any(phrase in line.lower() for phrase in [...])`, where
`line` is the already-`rstrip`ped output line. -/
def lineMatchesPrompt (line : String) : Bool :=
  promptPhrases.any fun p => occurs p.data (lowerChars line.data)

/-- Lines 452–472: the events produced for one raw line obtained from
`process.stdout.readline()` — the line is `rstrip`ped and emitted, then, if
it matches a confirmation phrase, `'y\n'` is written to stdin and the
auto-answer note is emitted. -/
def installLineEvents (raw : String) : List InstEvent :=
  let line := pyRstrip raw
  InstEvent.logLine line ::
    (if lineMatchesPrompt line then
      [InstEvent.stdinWrite "y\n", InstEvent.autoAnswerNote]
    else [])

/-- Lines 477–482: events for one line of the remaining output read after
the process exited (emitted `rstrip`ped when its `strip` is non-empty). -/
def installRemainingEvents (raw : String) : List InstEvent :=
  if !(pyStrip raw).isEmpty then [InstEvent.logLine (pyRstrip raw)] else []

/-- The full event trace of the `install_arch_package` read loop, given the
lines read live and the lines of the remaining buffered output.  Events of
one line precede those of all later lines (FIFO). -/
def installStreamEvents (stream remaining : List String) : List InstEvent :=
  (stream.map installLineEvents).flatten ++
    (remaining.map installRemainingEvents).flatten

/-- Does an event write to the child's stdin? -/
def isStdinWrite : InstEvent → Bool
  | .stdinWrite _ => true
  | _ => false

/-! ### `install_debtap`: iteration over the backend package managers

Lines 245–357.  The loop walks a fixed candidate list; for each candidate it
probes `which cmd[0]` (skip on non-zero), starts the privileged install via
`run_sudo_command` (which returns `None` when no sudo password is stored —
skip), and on a zero install exit re-probes `which debtap`; only when that
re-check also succeeds does the function return `True` (after a non-fatal
database refresh).  Any other outcome falls through to the next candidate. -/

/-- Environment for one `install_debtap` run: the outcomes of the external
probes and processes it may start. -/
structure MgrEnv where
  /-- `which <exe>` exits 0 (lines 259–261 / 294–296) -/
  whichOk : String → Bool
  /-- `self.sudo_password` is non-empty, so `run_sudo_command` returns a
  process rather than `None` (lines 208–209, 267–270) -/
  passwordSet : Bool
  /-- exit status of the privileged install run for a given manager
  (line 290) -/
  installExit : String → Nat
  /-- result of the post-install `which debtap` re-check run after a given
  manager's install succeeded (lines 294–296) -/
  verifyAfter : String → Bool

/-- The fixed candidate table of lines 250–254, in source order. -/
def package_managers : List (List String × String) :=
  [(["yay", "-S", "--noconfirm", "debtap"], "yay"),
   (["paru", "-S", "--noconfirm", "debtap"], "paru"),
   (["pamac", "install", "--no-confirm", "debtap"], "pamac")]

/-- Lines 256–341: the candidate loop.  Returns the name of the manager the
loop succeeded at (`some name` corresponds to the `return True` at line 331)
or `none` when every candidate was skipped or failed (the `return False` at
line 357). -/
def tryManagers (env : MgrEnv) : List (List String × String) → Option String
  | [] => none
  | (cmd, name) :: rest =>
    if !env.whichOk (cmd.headD "") then tryManagers env rest
    else if !env.passwordSet then tryManagers env rest
    else if env.installExit name != 0 then tryManagers env rest
    else if !env.verifyAfter name then tryManagers env rest
    else some name

/-- The boolean result of `install_debtap` (line 331 / line 357). -/
def install_debtap (env : MgrEnv) : Bool :=
  (tryManagers env package_managers).isSome

/-- A candidate succeeds exactly when its executable is on the path, its
privileged install exits 0, and the post-install re-check finds `debtap`. -/
def mgrGood (env : MgrEnv) (pm : List String × String) : Bool :=
  env.whichOk (pm.1.headD "") && (env.installExit pm.2 == 0)
    && env.verifyAfter pm.2

/-- Example environment: yay absent, paru present and succeeding, pamac
present. -/
def mgrEnvEx : MgrEnv where
  whichOk := fun s => s == "paru" || s == "pamac" || s == "debtap"
  passwordSet := true
  installExit := fun s => if s == "paru" then 0 else 1
  verifyAfter := fun s => s == "paru"

/-! ### `DebInstallerGUI.get_sudo_password`: credential validation

Lines 613–695.  After the dialog returns a candidate password, a blank or
whitespace-only candidate is rejected with no subprocess started
(lines 622–625).  Otherwise stage 1 runs `sudo -S -v`; on exit 0, stage 2
runs `sudo -S whoami` and the validation is accepted only when stage 2 also
exits 0 and its stdout contains `"root"` (line 654).  A non-zero stage-1
exit is classified from its stderr text (lines 669–686). -/

/-- Environment for one validation attempt: the outcomes of the two sudo
probes. -/
structure SudoProbeEnv where
  /-- exit status of `sudo -S -v` (line 640) -/
  validateExit : Nat
  /-- stderr of `sudo -S -v` (line 638) -/
  validateErr : String
  /-- exit status of `sudo -S whoami` (line 654) -/
  whoamiExit : Nat
  /-- stdout of `sudo -S whoami` (line 654) -/
  whoamiOut : String

/-- Outcome of one validation attempt. -/
inductive AuthResult where
  /-- blank password rejected (lines 622–625): re-prompt -/
  | emptyPassword
  /-- both probes succeeded and `whoami` reported root (lines 654–661) -/
  | confirmed
  /-- stage 1 passed but stage 2 failed (lines 662–667): re-prompt -/
  | cannotRunSudo
  /-- stage-1 stderr mentioned a wrong password (lines 673–675): re-prompt -/
  | incorrectPassword
  /-- stage-1 stderr says the user is not in sudoers (lines 676–681):
  the application quits -/
  | notInSudoers
  /-- any other stage-1 failure (lines 682–684): re-prompt -/
  | otherFailure
  deriving DecidableEq, Repr

/-- Lines 669–686: classification of a failed stage-1 probe from its error
text. -/
def classifyAuthError (err : String) : AuthResult :=
  if pyContains (⟨lowerChars err.data⟩ : String) "incorrect password"
      || pyContains (⟨lowerChars err.data⟩ : String) "sorry" then
    .incorrectPassword
  else if pyContains (⟨lowerChars err.data⟩ : String) "not in the sudoers file" then
    .notInSudoers
  else .otherFailure

/-- Lines 620–686: the validation performed on the candidate password,
returning the outcome together with the number of external processes
spawned. -/
def get_sudo_password (pw : String) (env : SudoProbeEnv) : AuthResult × Nat :=
  if (pyStrip pw).isEmpty then (.emptyPassword, 0)
  else if env.validateExit == 0 then
    (if env.whoamiExit == 0 && pyContains env.whoamiOut "root" then
      (.confirmed, 2)
    else (.cannotRunSudo, 2), 2).1
  else (classifyAuthError env.validateErr, 1)

/-! ### `convert_deb_package` (lines 359–433)

The conversion step `os.chdir`s into the working directory, spawns
`debtap -Q <file>` feeding it three scripted answers, and waits via
`communicate(..., timeout=300)`.  On `TimeoutExpired` the child is killed
and the function returns `None` with the original cwd *not* restored; the
same holds when the spawn/communicate raises any other exception (caught at
line 431).  Only when `communicate` returns is the cwd restored (line 405),
after which a non-zero exit or an empty artifact scan produce `None`. -/

/-- Log messages of `convert_deb_package`; constructors tag the fixed
message texts of the source, streamed converter output keeps its text. -/
inductive ConvLog where
  /-- line 369: "Detected package name: ..." -/
  | detectedName (s : String)
  /-- line 398: a stripped, non-noise converter output line -/
  | outLine (s : String)
  /-- line 402: "Conversion timed out after 5 minutes" -/
  | timedOut
  /-- line 408: "debtap failed with return code: ..." -/
  | debtapFailed (code : Int)
  /-- line 418: "No package file generated" -/
  | noPackage
  /-- line 420: "Files in temp directory:" -/
  | filesHeader
  /-- line 422: "  - <file>" for one file of the working directory -/
  | fileEntry (s : String)
  /-- line 427: "Found generated package: ..." -/
  | foundPackage (s : String)
  /-- line 432: "Exception during conversion: ..." -/
  | exceptionMsg
  deriving DecidableEq

/-- Environment for one conversion: the working directory, the original
cwd, the input filename, and the behaviour of the `debtap` child. -/
structure ConvEnv where
  /-- `self.temp_dir` -/
  tempDir : String
  /-- `os.getcwd()` at entry (line 362) -/
  origCwd : String
  /-- `os.path.basename(temp_deb_path)` (line 366) -/
  debFilename : String
  /-- the spawn or `communicate` raises a non-timeout exception after the
  chdir (caught by the handler at line 431) -/
  spawnRaises : Bool
  /-- seconds until the `debtap` child exits -/
  durationSecs : Nat
  /-- exit status of the `debtap` child -/
  exitCode : Int
  /-- the child's merged output split on newlines (line 395) -/
  stdoutLines : List String
  /-- `os.listdir(self.temp_dir)` after conversion (line 413) -/
  dirFiles : List String

/-- Result of one conversion: the artifact path (or `None`), the process
cwd when the function returns, whether the child was killed, and the log. -/
structure ConvOutcome where
  result : Option String
  cwd : String
  killed : Bool
  logs : List ConvLog
  deriving DecidableEq

/-- The hard conversion timeout of line 393 (`timeout=300`, 5 minutes). -/
def conversionTimeout : Nat := 300

/-- Line 414: does a filename match the native-package extension set? -/
def isPkgFile (f : String) : Bool :=
  pyEndsWith f ".pkg.tar.zst" || pyEndsWith f ".pkg.tar.xz"

/-- Line 367: `deb_filename.split('_')[0]` — the prefix of the filename up
to the first underscore. -/
def packageNameOf (filename : String) : String :=
  ⟨filename.data.takeWhile fun c => c != '_'⟩

/-- Lines 395–398: the converter output lines that are emitted — each line
is stripped, then kept only if non-empty and not starting with `"==>"`. -/
def convOutLines (stdoutLines : List String) : List ConvLog :=
  (stdoutLines.map pyStrip).filterMap fun l =>
    if !l.isEmpty && !pyStartsWith l "==>" then some (ConvLog.outLine l)
    else none

/-- Lines 359–433: the conversion step. -/
def convert_deb_package (env : ConvEnv) : ConvOutcome :=
  if env.spawnRaises then
    { result := none, cwd := env.tempDir, killed := false,
      logs := [.detectedName (packageNameOf env.debFilename), .exceptionMsg] }
  else if conversionTimeout < env.durationSecs then
    { result := none, cwd := env.tempDir, killed := true,
      logs := [.detectedName (packageNameOf env.debFilename), .timedOut] }
  else if env.exitCode != 0 then
    { result := none, cwd := env.origCwd, killed := false,
      logs := [.detectedName (packageNameOf env.debFilename)]
        ++ convOutLines env.stdoutLines ++ [.debtapFailed env.exitCode] }
  else
    match env.dirFiles.filter isPkgFile with
    | [] =>
      { result := none, cwd := env.origCwd, killed := false,
        logs := [.detectedName (packageNameOf env.debFilename)]
          ++ convOutLines env.stdoutLines
          ++ [.noPackage, .filesHeader]
          ++ env.dirFiles.map ConvLog.fileEntry }
    | f :: _ =>
      { result := some (env.tempDir ++ "/" ++ f), cwd := env.origCwd,
        killed := false,
        logs := [.detectedName (packageNameOf env.debFilename)]
          ++ convOutLines env.stdoutLines ++ [.foundPackage f] }

/-! ### Time estimates (lines 88–91)

`file_size_mb` is the byte size divided by `1024 * 1024`; the estimates are
`max(10, int(file_size_mb * 2))` and `max(5, int(file_size_mb * 0.5))`.
The model computes with exact rationals; Python `int()` truncates toward
zero. -/

/-- Python `int()` applied to a rational: truncation toward zero. -/
def pyTrunc (q : ℚ) : ℤ := if 0 ≤ q then ⌊q⌋ else ⌈q⌉

/-- Line 89: `conversion_time = max(10, int(file_size_mb * 2))`. -/
def conversion_time (sizeMB : ℚ) : ℤ := max 10 (pyTrunc (sizeMB * 2))

/-- Line 90: `install_time = max(5, int(file_size_mb * 0.5))`. -/
def install_time (sizeMB : ℚ) : ℤ := max 5 (pyTrunc (sizeMB * 0.5))

/-- Line 91: `total_estimated = conversion_time + install_time + 5`. -/
def total_estimated (sizeMB : ℚ) : ℤ :=
  conversion_time sizeMB + install_time sizeMB + 5

/-- The conversion-time model as the spec states it (`max(10, 2·S)`),
written from the spec's words for comparison with `conversion_time`. -/
def specConversionEstimate (sizeMB : ℚ) : ℚ := max 10 (2 * sizeMB)

/-- The install-time model as the spec states it (`max(5, 0.5·S)`),
written from the spec's words for comparison with `install_time`. -/
def specInstallEstimate (sizeMB : ℚ) : ℚ := max 5 (0.5 * sizeMB)

/-! ### `InstallWorker.run` (lines 82–204)

The pipeline: estimate, check debtap (failure returns before the working
directory exists), `mkdtemp`, copy the input (`shutil.copy2` may raise —
modelling the unexpected-exception path, caught by the `except` at
line 195), convert, install.  The `finally` block (lines 199–204) runs on
every path: when `self.temp_dir` is set and the directory still exists it
is removed with `shutil.rmtree(..., ignore_errors=True)`; a removal error
is swallowed and never surfaces, and a directory already gone is simply
skipped by the `os.path.exists` guard. -/

/-- Environment for one `InstallWorker.run`: outcomes of the steps and of
the filesystem operations. -/
structure RunEnv where
  /-- `file_size_mb` (line 88) -/
  sizeMB : ℚ
  /-- result of `check_debtap()` (line 106) -/
  debtapOk : Bool
  /-- `shutil.copy2` raises (line 132), the representative unexpected
  exception caught by the handler at line 195 -/
  copyRaises : Bool
  /-- environment of the conversion step (line 148) -/
  conv : ConvEnv
  /-- result of `install_arch_package` (line 174) -/
  installOk : Bool
  /-- the working directory was removed externally before the cleanup's
  `os.path.exists` check (line 201) -/
  dirVanished : Bool
  /-- `shutil.rmtree` succeeds in removing the directory (line 203); when
  it fails, `ignore_errors=True` swallows the error -/
  rmtreeOk : Bool

/-- Observable outcome of one `InstallWorker.run`. -/
structure RunOutcome where
  /-- the up-front estimate emitted at lines 91–96 -/
  estimatedTotal : ℤ
  /-- `tempfile.mkdtemp` was reached (line 122) -/
  tempCreated : Bool
  /-- the working directory still exists after the `finally` block -/
  tempExistsAtEnd : Bool
  /-- the run propagated an exception to its caller -/
  raised : Bool
  /-- the boolean of the terminal `finished` signal -/
  success : Bool
  /-- the `progress_value` emissions, in order -/
  progress : List Nat
  deriving DecidableEq

/-- Lines 199–204: whether the working directory still exists after the
`finally` block (removed when it was created and still present and `rmtree`
succeeds; `ignore_errors=True` swallows a failed removal). -/
def cleanupLeavesDir (created : Bool) (env : RunEnv) : Bool :=
  if created && !env.dirVanished then !env.rmtreeOk else false

/-- Lines 82–204: the worker pipeline. -/
def runWorker (env : RunEnv) : RunOutcome :=
  if !env.debtapOk then
    { estimatedTotal := total_estimated env.sizeMB, tempCreated := false,
      tempExistsAtEnd := cleanupLeavesDir false env, raised := false,
      success := false, progress := [5] }
  else if env.copyRaises then
    { estimatedTotal := total_estimated env.sizeMB, tempCreated := true,
      tempExistsAtEnd := cleanupLeavesDir true env, raised := false,
      success := false, progress := [5, 10, 15] }
  else
    match (convert_deb_package env.conv).result with
    | none =>
      { estimatedTotal := total_estimated env.sizeMB, tempCreated := true,
        tempExistsAtEnd := cleanupLeavesDir true env, raised := false,
        success := false, progress := [5, 10, 15, 20] }
    | some _ =>
      if env.installOk then
        { estimatedTotal := total_estimated env.sizeMB, tempCreated := true,
          tempExistsAtEnd := cleanupLeavesDir true env, raised := false,
          success := true, progress := [5, 10, 15, 20, 70, 75, 100] }
      else
        { estimatedTotal := total_estimated env.sizeMB, tempCreated := true,
          tempExistsAtEnd := cleanupLeavesDir true env, raised := false,
          success := false, progress := [5, 10, 15, 20, 70, 75] }

/-- A run environment for the full success path: debtap present, copy
succeeding, conversion finishing in 12 s with exit 0 and one artifact,
install succeeding, cleanup succeeding. -/
def runEnvEx : RunEnv where
  sizeMB := 10
  debtapOk := true
  copyRaises := false
  conv := ⟨"/tmp/deb_installer_x", "/home/user", "app_1.0_amd64.deb",
    false, 12, 0, [], ["app-1.0-1-x86_64.pkg.tar.zst"]⟩
  installOk := true
  dirVanished := false
  rmtreeOk := true

/-! ### Theorems -/

/-! ### Lemmas about the string models -/

theorem leads_append (p : List Char) :
    ∀ a b : List Char, leads p a = true → leads p (a ++ b) = true := by
  induction p with
  | nil => intro a b _; rfl
  | cons x xs ih =>
    intro a b h
    cases a with
    | nil => simp [leads] at h
    | cons y ys =>
      simp only [leads, Bool.and_eq_true] at h
      simp only [List.cons_append, leads, Bool.and_eq_true]
      exact ⟨h.1, ih ys b h.2⟩

theorem occurs_nil_true (s : List Char) : occurs [] s = true := by
  induction s with
  | nil => rfl
  | cons c rest ih => simp [occurs, leads, ih]

theorem occurs_append_left (p : List Char) :
    ∀ a b : List Char, occurs p a = true → occurs p (a ++ b) = true := by
  intro a
  induction a with
  | nil =>
    intro b h
    simp only [occurs, List.isEmpty_iff] at h
    subst h
    simpa using occurs_nil_true b
  | cons c rest ih =>
    intro b h
    simp only [occurs, Bool.or_eq_true] at h
    rcases h with h | h
    · simp only [List.cons_append, occurs, Bool.or_eq_true]
      exact Or.inl (leads_append p _ b h)
    · simp only [List.cons_append, occurs, Bool.or_eq_true]
      exact Or.inr (ih b h)

theorem rstrip_append_eq (l : List Char) :
    rstripChars l ++ (l.reverse.takeWhile isWS).reverse = l := by
  unfold rstripChars
  rw [← List.reverse_append, List.takeWhile_append_dropWhile, List.reverse_reverse]

/-- If a string does not contain `"password"` case-insensitively, neither
does its `rstrip`. -/
theorem mentionsPassword_rstrip (s : String)
    (h : mentionsPassword s = false) : mentionsPassword (pyRstrip s) = false := by
  unfold mentionsPassword at h ⊢
  unfold pyRstrip
  by_contra hc
  rw [Bool.not_eq_false] at hc
  have := occurs_append_left "password".data
    (lowerChars (rstripChars s.data))
    (lowerChars ((s.data.reverse.takeWhile isWS).reverse)) hc
  rw [show lowerChars (rstripChars s.data) ++
        lowerChars ((s.data.reverse.takeWhile isWS).reverse)
      = lowerChars s.data by
    unfold lowerChars
    rw [← List.map_append, rstrip_append_eq]] at this
  rw [h] at this
  exact Bool.false_ne_true this

theorem occurs_password_cons_space (x : List Char) :
    occurs "password".data (' ' :: x) = occurs "password".data x := by
  have hpw : "password".data = 'p' :: "assword".data := rfl
  rw [occurs, hpw]
  have : leads ('p' :: "assword".data) (' ' :: x) = false := by
    simp [leads]
  rw [this]
  simp

/-- The two-space indent prepended by `install_debtap` when emitting a line
(`f"  {line}"`) does not affect the `"password"` containment test. -/
theorem mentionsPassword_indent (s : String) :
    mentionsPassword ⟨' ' :: ' ' :: s.data⟩ = mentionsPassword s := by
  unfold mentionsPassword
  show occurs "password".data (lowerChars (' ' :: ' ' :: s.data)) = _
  have hsp : Char.toLower ' ' = ' ' := rfl
  simp only [lowerChars, List.map_cons, hsp]
  rw [occurs_password_cons_space, occurs_password_cons_space]

/-- C3: during `install_debtap`'s streaming of the backend install output and
of the database-refresh output, no emitted log line contains the substring
`"password"` case-insensitively: every such line is suppressed before
emission. -/
theorem password_lines_suppressed (stream remaining : List String)
    (e : String) (he : e ∈ debtapStreamEmits stream remaining) :
    mentionsPassword e = false := by
  unfold debtapStreamEmits at he
  rcases List.mem_append.mp he with h | h
  · rcases List.mem_filterMap.mp h with ⟨raw, _, hemit⟩
    simp only [streamLineEmit] at hemit
    split at hemit
    · rename_i hcond
      simp only [Bool.and_eq_true, Bool.not_eq_true'] at hcond
      cases hemit
      rw [show indentLine (pyRstrip raw) = ⟨' ' :: ' ' :: (pyRstrip raw).data⟩ from rfl,
        mentionsPassword_indent]
      exact hcond.2
    · cases hemit
  · rcases List.mem_filterMap.mp h with ⟨raw, _, hemit⟩
    simp only [remainingLineEmit] at hemit
    split at hemit
    · rename_i hcond
      simp only [Bool.and_eq_true, Bool.not_eq_true'] at hcond
      cases hemit
      rw [show indentLine (pyRstrip raw) = ⟨' ' :: ' ' :: (pyRstrip raw).data⟩ from rfl,
        mentionsPassword_indent]
      exact mentionsPassword_rstrip raw hcond.2
    · cases hemit

/-- Witness for `password_lines_suppressed` at a concrete stream: the stream
`["checking deps", "[sudo] Password for user:"]` emits `"  checking deps"`,
and that emitted line does not mention a password. -/
theorem password_lines_suppressed_witness :
    mentionsPassword "  checking deps" = false :=
  password_lines_suppressed ["checking deps", "[sudo] Password for user:"] []
    "  checking deps" (by decide)

theorem filter_isStdinWrite_installLineEvents (raw : String) :
    (installLineEvents raw).filter isStdinWrite
      = if lineMatchesPrompt (pyRstrip raw) then [InstEvent.stdinWrite "y\n"]
        else [] := by
  simp only [installLineEvents]
  by_cases h : lineMatchesPrompt (pyRstrip raw) <;>
    simp [h, List.filter, isStdinWrite]

theorem filter_isStdinWrite_installRemainingEvents (raw : String) :
    (installRemainingEvents raw).filter isStdinWrite = [] := by
  simp only [installRemainingEvents]
  by_cases h : (pyStrip raw).isEmpty <;> simp [h, List.filter, isStdinWrite]

theorem filter_isStdinWrite_live (stream : List String) :
    ((stream.map installLineEvents).flatten).filter isStdinWrite
      = List.replicate
          (stream.countP fun raw => lineMatchesPrompt (pyRstrip raw))
          (InstEvent.stdinWrite "y\n") := by
  induction stream with
  | nil => rfl
  | cons raw rest ih =>
    rw [List.map_cons, List.flatten_cons, List.filter_append, ih,
      filter_isStdinWrite_installLineEvents, List.countP_cons]
    by_cases h : lineMatchesPrompt (pyRstrip raw) <;>
      simp [h, List.replicate_succ]

theorem filter_isStdinWrite_remaining (rs : List String) :
    ((rs.map installRemainingEvents).flatten).filter isStdinWrite = [] := by
  induction rs with
  | nil => rfl
  | cons r rest ih =>
    simp only [List.map_cons, List.flatten_cons, List.filter_append, ih,
      filter_isStdinWrite_installRemainingEvents, List.append_nil]

/-- C7: in the install step's read loop, the stdin writes are exactly one
`"y\n"` per output line matching a confirmation phrase; lines matching no
phrase trigger no write; and each matching line's events include the
auto-answer note, emitted together with the write before the next line is
read. -/
theorem prompts_auto_answered (stream remaining : List String) :
    ((installStreamEvents stream remaining).filter isStdinWrite
        = List.replicate
            (stream.countP fun raw => lineMatchesPrompt (pyRstrip raw))
            (InstEvent.stdinWrite "y\n"))
    ∧ ∀ raw ∈ stream, lineMatchesPrompt (pyRstrip raw) = true →
        InstEvent.stdinWrite "y\n" ∈ installLineEvents raw ∧
        InstEvent.autoAnswerNote ∈ installLineEvents raw := by
  constructor
  · unfold installStreamEvents
    rw [List.filter_append, filter_isStdinWrite_remaining,
      filter_isStdinWrite_live, List.append_nil]
  · intro raw _ hm
    simp [installLineEvents, hm]

/-- Witness for `prompts_auto_answered` at the stream
`[":: Proceed with installation? [Y/n]"]`: the answer `"y\n"` and the note
are both produced for that line. -/
theorem prompts_auto_answered_witness :
    InstEvent.stdinWrite "y\n"
        ∈ installLineEvents ":: Proceed with installation? [Y/n]"
    ∧ InstEvent.autoAnswerNote
        ∈ installLineEvents ":: Proceed with installation? [Y/n]" :=
  (prompts_auto_answered [":: Proceed with installation? [Y/n]"] []).2
    ":: Proceed with installation? [Y/n]" (by simp) (by decide)

/-- C10: the install step's read loop emits every live output line
(`rstrip`ped) and every non-blank remaining line verbatim, with no
redaction filter on content — in particular, password-prompt lines are
emitted rather than suppressed (see the witness). -/
theorem install_output_unredacted (stream remaining : List String) :
    (∀ raw ∈ stream,
        InstEvent.logLine (pyRstrip raw) ∈ installStreamEvents stream remaining)
    ∧ ∀ raw ∈ remaining, (pyStrip raw).isEmpty = false →
        InstEvent.logLine (pyRstrip raw) ∈ installStreamEvents stream remaining := by
  constructor
  · intro raw hraw
    apply List.mem_append_left
    rw [List.mem_flatten]
    exact ⟨installLineEvents raw, List.mem_map_of_mem _ hraw,
      by simp [installLineEvents]⟩
  · intro raw hraw hne
    apply List.mem_append_right
    rw [List.mem_flatten]
    exact ⟨installRemainingEvents raw, List.mem_map_of_mem _ hraw,
      by simp [installRemainingEvents, hne]⟩

/-- Witness for `install_output_unredacted`: the sudo password prompt line
`"[sudo] password for user: "` is emitted (rstripped) on the log channel. -/
theorem install_output_unredacted_witness :
    InstEvent.logLine "[sudo] password for user:"
      ∈ installStreamEvents ["[sudo] password for user: "] [] := by
  have h := (install_output_unredacted ["[sudo] password for user: "] []).1
    "[sudo] password for user: " (by simp)
  exact (by decide :
      pyRstrip "[sudo] password for user: " = "[sudo] password for user:") ▸ h

theorem tryManagers_eq_find (env : MgrEnv) (hp : env.passwordSet = true) :
    ∀ l : List (List String × String),
      tryManagers env l = (l.find? (mgrGood env)).map Prod.snd := by
  intro l
  induction l with
  | nil => rfl
  | cons pm rest ih =>
    obtain ⟨cmd, name⟩ := pm
    rw [tryManagers, List.find?_cons]
    cases h1 : env.whichOk (cmd.headD "") with
    | false =>
      have hg : mgrGood env (cmd, name) = false := by
        show (env.whichOk (cmd.headD "") && (env.installExit name == 0) &&
          env.verifyAfter name) = false
        rw [h1, Bool.false_and, Bool.false_and]
      rw [hg]
      simp [ih]
    | true =>
      rw [hp]
      cases h2 : env.installExit name == 0 with
      | false =>
        have hg : mgrGood env (cmd, name) = false := by
          show (env.whichOk (cmd.headD "") && (env.installExit name == 0) &&
            env.verifyAfter name) = false
          rw [h2, Bool.and_false, Bool.false_and]
        rw [hg]
        simp only [bne, h2]
        simp [ih]
      | true =>
        simp only [bne, h2]
        cases h3 : env.verifyAfter name with
        | false =>
          have hg : mgrGood env (cmd, name) = false := by
            show (env.whichOk (cmd.headD "") && (env.installExit name == 0) &&
              env.verifyAfter name) = false
            rw [h3, Bool.and_false]
          rw [hg]
          simp [ih]
        | true =>
          have hg : mgrGood env (cmd, name) = true := by
            show (env.whichOk (cmd.headD "") && (env.installExit name == 0) &&
              env.verifyAfter name) = true
            rw [h1, h2, h3]
            rfl
          rw [hg]
          simp

/-- C5: with a stored sudo password, `install_debtap` walks the candidate
managers in the fixed order yay, paru, pamac and succeeds at exactly the
first candidate whose executable is present, whose install exits 0 and
whose post-install re-check finds the converter (`List.find?` of `mgrGood`
over the table); it reports overall failure exactly when no candidate
qualifies. -/
theorem converter_install_first_success (env : MgrEnv)
    (hp : env.passwordSet = true) :
    tryManagers env package_managers
        = (package_managers.find? (mgrGood env)).map Prod.snd
    ∧ (install_debtap env = false ↔
        ∀ pm ∈ package_managers, mgrGood env pm = false) := by
  refine ⟨tryManagers_eq_find env hp package_managers, ?_⟩
  rw [install_debtap, tryManagers_eq_find env hp package_managers]
  constructor
  · intro h
    have hnone : package_managers.find? (mgrGood env) = none := by
      cases hf : package_managers.find? (mgrGood env) with
      | none => rfl
      | some x => rw [hf] at h; simp at h
    intro pm hpm
    exact Bool.eq_false_iff.mpr (List.find?_eq_none.mp hnone pm hpm)
  · intro h
    have hnone : package_managers.find? (mgrGood env) = none :=
      List.find?_eq_none.mpr fun pm hpm => by simp [h pm hpm]
    rw [hnone]
    rfl

/-- Witness for `converter_install_first_success`: with yay absent and paru
succeeding, the loop stops at paru. -/
theorem converter_install_first_success_witness :
    tryManagers mgrEnvEx package_managers = some "paru" := by
  rw [(converter_install_first_success mgrEnvEx rfl).1]
  rfl

theorem classifyAuthError_ne_confirmed (err : String) :
    classifyAuthError err ≠ .confirmed := by
  unfold classifyAuthError
  split
  · exact fun h => AuthResult.noConfusion h
  · split
    · exact fun h => AuthResult.noConfusion h
    · exact fun h => AuthResult.noConfusion h

/-- C8: a blank or whitespace-only candidate is rejected with zero external
processes spawned; a non-blank candidate validates successfully exactly when
the privilege-refresh probe and the identity probe both exit 0 and the
identity probe's stdout contains `"root"`. -/
theorem credential_validation (pw : String) (env : SudoProbeEnv) :
    ((pyStrip pw).isEmpty = true →
        get_sudo_password pw env = (.emptyPassword, 0))
    ∧ ((pyStrip pw).isEmpty = false →
        ((get_sudo_password pw env).1 = .confirmed ↔
          env.validateExit = 0 ∧ env.whoamiExit = 0 ∧
            pyContains env.whoamiOut "root" = true)) := by
  constructor
  · intro hb
    simp [get_sudo_password, hb]
  · intro hb
    rw [get_sudo_password]
    simp only [hb, Bool.false_eq_true, if_false]
    by_cases h1 : env.validateExit = 0
    · by_cases h2 : env.whoamiExit = 0
      · by_cases h3 : pyContains env.whoamiOut "root"
        · simp [h1, h2, h3]
        · simp [h1, h2, h3]
      · simp [h1, h2]
    · have hb1 : (env.validateExit == 0) = false := by simpa using h1
      rw [hb1]
      simp only [Bool.false_eq_true, if_false]
      constructor
      · intro hc
        exact absurd hc (classifyAuthError_ne_confirmed env.validateErr)
      · rintro ⟨hc, -⟩
        exact absurd hc h1

/-- Witness for `credential_validation` at concrete inputs: the blank
candidate `"   "` is rejected with no process spawned, and a non-blank
candidate with both probes succeeding and `whoami` printing `root` is
confirmed. -/
theorem credential_validation_witness :
    get_sudo_password "   " ⟨0, "", 0, "root"⟩ = (.emptyPassword, 0)
    ∧ (get_sudo_password "hunter2" ⟨0, "", 0, "root\n"⟩).1 = .confirmed :=
  ⟨(credential_validation "   " ⟨0, "", 0, "root"⟩).1 (by decide),
   ((credential_validation "hunter2" ⟨0, "", 0, "root\n"⟩).2 (by decide)).mpr
     ⟨rfl, rfl, by decide⟩⟩

/-- C4: if `debtap` runs past the 300-second timeout, the child is killed,
the "conversion timed out" message is logged, the step returns no artifact,
and every run whose conversion step times out finishes with failure — the
pipeline makes no second conversion attempt. -/
theorem conversion_timeout_fails (env : ConvEnv)
    (hs : env.spawnRaises = false)
    (ht : conversionTimeout < env.durationSecs) :
    (convert_deb_package env).killed = true
    ∧ (convert_deb_package env).result = none
    ∧ ConvLog.timedOut ∈ (convert_deb_package env).logs
    ∧ ∀ renv : RunEnv, renv.conv = env → renv.debtapOk = true →
        renv.copyRaises = false → (runWorker renv).success = false := by
  have hres : (convert_deb_package env).result = none := by
    simp [convert_deb_package, hs, ht]
  refine ⟨by simp [convert_deb_package, hs, ht], hres,
    by simp [convert_deb_package, hs, ht], ?_⟩
  intro renv hc h1 h2
  unfold runWorker
  rw [hc, hres, h1, h2]
  rfl

/-- C6: converter exit 0 with no matching artifact file makes `Convert`
fail (no path) and enumerate every file of the working directory. -/
theorem conversion_no_artifact_diagnostic (env : ConvEnv)
    (hs : env.spawnRaises = false)
    (ht : ¬ conversionTimeout < env.durationSecs)
    (hz : env.exitCode = 0)
    (hn : env.dirFiles.filter isPkgFile = []) :
    (convert_deb_package env).result = none
    ∧ ConvLog.noPackage ∈ (convert_deb_package env).logs
    ∧ ∀ f ∈ env.dirFiles, ConvLog.fileEntry f ∈ (convert_deb_package env).logs := by
  unfold convert_deb_package
  rw [hn]
  simp only [hs, Bool.false_eq_true, if_false, if_neg ht, hz]
  norm_num
  intro f hf
  simp [hf]

/-- C9: the conversion step restores the original cwd exactly on the path
where the child terminated without timeout and without exception; on the
timeout and exception paths the function returns with the process still in
the working directory (and with no artifact). -/
theorem conversion_cwd_restore (env : ConvEnv) :
    ((convert_deb_package env).cwd =
      if env.spawnRaises = true ∨ conversionTimeout < env.durationSecs then
        env.tempDir
      else env.origCwd)
    ∧ (env.spawnRaises = true → (convert_deb_package env).result = none) := by
  constructor
  · unfold convert_deb_package
    by_cases hs : env.spawnRaises = true
    · simp [hs]
    · by_cases ht : conversionTimeout < env.durationSecs
      · simp [hs, ht]
      · simp only [hs, ht, or_self, if_false, Bool.not_eq_true] at *
        simp only [hs, Bool.false_eq_true, if_false, if_neg ht]
        split
        · rfl
        · split <;> rfl
  · intro hs
    simp [convert_deb_package, hs]

/-- Witness for `conversion_timeout_fails`: a 301-second run is killed and
returns no artifact. -/
theorem conversion_timeout_fails_witness :
    (convert_deb_package
        ⟨"/tmp/deb_installer_x", "/home/user", "app_1.0_amd64.deb",
          false, 301, 0, [], []⟩).killed = true
    ∧ (convert_deb_package
        ⟨"/tmp/deb_installer_x", "/home/user", "app_1.0_amd64.deb",
          false, 301, 0, [], []⟩).result = none :=
  ⟨(conversion_timeout_fails _ rfl (by decide)).1,
   (conversion_timeout_fails _ rfl (by decide)).2.1⟩

/-- Witness for `conversion_no_artifact_diagnostic`: exit 0 with only
non-artifact files present yields no path and enumerates the files. -/
theorem conversion_no_artifact_diagnostic_witness :
    (convert_deb_package
        ⟨"/tmp/deb_installer_x", "/home/user", "app_1.0_amd64.deb",
          false, 12, 0, [], ["app_1.0_amd64.deb", "notes.txt"]⟩).result = none
    ∧ ConvLog.fileEntry "notes.txt" ∈
        (convert_deb_package
          ⟨"/tmp/deb_installer_x", "/home/user", "app_1.0_amd64.deb",
            false, 12, 0, [], ["app_1.0_amd64.deb", "notes.txt"]⟩).logs :=
  ⟨(conversion_no_artifact_diagnostic _ rfl (by decide) rfl (by decide)).1,
   (conversion_no_artifact_diagnostic _ rfl (by decide) rfl (by decide)).2.2
     "notes.txt" (by decide)⟩

/-- Witness for `conversion_cwd_restore`: on an exception path the function
returns still chdir'd into the working directory and without artifact. -/
theorem conversion_cwd_restore_witness :
    (convert_deb_package
        ⟨"/tmp/deb_installer_x", "/home/user", "app_1.0_amd64.deb",
          true, 0, 0, [], []⟩).cwd = "/tmp/deb_installer_x"
    ∧ (convert_deb_package
        ⟨"/tmp/deb_installer_x", "/home/user", "app_1.0_amd64.deb",
          true, 0, 0, [], []⟩).result = none := by
  have h := conversion_cwd_restore
    ⟨"/tmp/deb_installer_x", "/home/user", "app_1.0_amd64.deb",
      true, 0, 0, [], []⟩
  refine ⟨?_, h.2 rfl⟩
  rw [h.1]
  simp

/-- C2 counterexample: at `S = 11` MB the code computes an install estimate
of `5`, but the claimed formula `max(5, 0.5·S)` gives `5.5`, so the claim
as stated is false (its value is not even an integer). -/
theorem time_estimate_claim_counterexample :
    ¬ ((install_time 11 : ℚ) = specInstallEstimate 11) := by
  norm_num [install_time, specInstallEstimate, pyTrunc]

/-- C2 (amended): for every size `S ≥ 0`, the conversion estimate is
`max(10, ⌊2·S⌋)` and the install estimate is `max(5, ⌊0.5·S⌋)` (Python
`int()` truncation), and both are non-negative integers. -/
theorem time_estimates (S : ℚ) (h : 0 ≤ S) :
    conversion_time S = max 10 ⌊2 * S⌋
    ∧ install_time S = max 5 ⌊(0.5 : ℚ) * S⌋
    ∧ 0 ≤ conversion_time S ∧ 0 ≤ install_time S := by
  have h2 : (0 : ℚ) ≤ S * 2 := by positivity
  have h5 : (0 : ℚ) ≤ S * 0.5 := by positivity
  refine ⟨?_, ?_, ?_, ?_⟩
  · rw [conversion_time, pyTrunc, if_pos h2, mul_comm]
  · rw [install_time, pyTrunc, if_pos h5, mul_comm]
  · exact le_trans (by norm_num) (le_max_left 10 (pyTrunc (S * 2)))
  · exact le_trans (by norm_num) (le_max_left 5 (pyTrunc (S * 0.5)))

/-- Witness for `time_estimates` at `S = 7/2` MB. -/
theorem time_estimates_witness :
    conversion_time (7 / 2) = max 10 ⌊2 * (7 / 2 : ℚ)⌋
    ∧ install_time (7 / 2) = max 5 ⌊(0.5 : ℚ) * (7 / 2)⌋
    ∧ 0 ≤ conversion_time (7 / 2) ∧ 0 ≤ install_time (7 / 2) :=
  time_estimates (7 / 2) (by norm_num)

theorem runWorker_tempExistsAtEnd (env : RunEnv) :
    (runWorker env).tempExistsAtEnd
      = cleanupLeavesDir (runWorker env).tempCreated env := by
  unfold runWorker
  split
  · rfl
  · split
    · rfl
    · split
      · rfl
      · split <;> rfl

theorem runWorker_raised (env : RunEnv) : (runWorker env).raised = false := by
  unfold runWorker
  split
  · rfl
  · split
    · rfl
    · split
      · rfl
      · split <;> rfl

theorem cleanupLeavesDir_of_rmtreeOk (c : Bool) (env : RunEnv)
    (hr : env.rmtreeOk = true) : cleanupLeavesDir c env = false := by
  unfold cleanupLeavesDir
  rw [hr]
  split <;> rfl

/-- C1: the run never propagates an exception (in particular the cleanup
never fails the run, including when the directory is already gone); when
the working directory was created (and removal itself succeeds — removal
errors being swallowed) it no longer exists at run end on every path; and
the terminal result is independent of whether the removal succeeded. -/
theorem workdir_always_cleaned (env : RunEnv) :
    (runWorker env).raised = false
    ∧ ((runWorker env).tempCreated = true → env.rmtreeOk = true →
        (runWorker env).tempExistsAtEnd = false)
    ∧ ∀ b, (runWorker { env with rmtreeOk := b }).success = (runWorker env).success := by
  refine ⟨runWorker_raised env, ?_, ?_⟩
  · intro hc hr
    rw [runWorker_tempExistsAtEnd, hc, cleanupLeavesDir_of_rmtreeOk _ _ hr]
  · intro b
    unfold runWorker
    dsimp only
    cases env.debtapOk
    · rfl
    · cases env.copyRaises
      · cases (convert_deb_package env.conv).result
        · rfl
        · cases env.installOk <;> rfl
      · rfl

/-- Witness for `workdir_always_cleaned` on the success path: the created
working directory is gone at run end and nothing was raised. -/
theorem workdir_always_cleaned_witness :
    (runWorker runEnvEx).tempExistsAtEnd = false
    ∧ (runWorker runEnvEx).raised = false :=
  ⟨(workdir_always_cleaned runEnvEx).2.1 rfl rfl,
   (workdir_always_cleaned runEnvEx).1⟩

end DebInstaller
